import Mathlib

set_option maxHeartbeats 1000000

/-!
A shallow embedding of the samsung-backlight driver (samsung-backlight.c):
the firmware-window signature scan, the SABI header field reads, the
interface-address derivation, the SABI command engine (get/set protocol),
the brightness adapter, and the initialization control flow.

Machine bytes are modelled as `Nat` with explicit `% 256`; 16-bit reads are
little-endian, as in the packed C structures.  I/O-mapped memory is modelled
as explicit state, and the port/memory side effects of one command execution
are recorded as an event list so that ordering properties can be stated.
-/

/-- The 6-byte signature "SwSmi@" that samsung_init searches for in the
firmware window (the C string testStr). -/
def testStr : List Nat := [0x53, 0x77, 0x53, 0x6d, 0x69, 0x40]

/-- Size of the mapped firmware window: the C code maps and scans
0xffff bytes starting at physical 0xf0000. -/
def windowSize : Nat := 0xffff

/-- An 8-bit read from a byte buffer (readb): values are reduced mod 256. -/
def readb (buf : Nat → Nat) (i : Nat) : Nat := buf i % 256

/-- A little-endian 16-bit read from a byte buffer (readw on a packed
little-endian structure field). -/
def readw (buf : Nat → Nat) (i : Nat) : Nat := readb buf i + 256 * readb buf (i + 1)

/-- The signature-scan loop of samsung_init, lines 300-312 of the C file:
`loca` is the current offset, `pStr` the current match position inside
testStr, and the first argument is the remaining number of loop iterations
(the loop runs `loca` from 0 while `loca < 0xffff`).  On a full match the C
code breaks with `loca` at the last signature byte and then executes
`loca += 1`; that increment is folded in here, so `some o` is the offset
immediately after the marker.  `none` is the `loca == 0xffff` exit, the
"This computer does not support SABI" case. -/
def scanFrom (buf : Nat → Nat) : Nat → Nat → Nat → Option Nat
  | 0, _, _ => none
  | n + 1, loca, pStr =>
    if readb buf loca = testStr.getD pStr 0 then
      if pStr = 5 then some (loca + 1)
      else scanFrom buf n (loca + 1) (pStr + 1)
    else scanFrom buf n (loca + 1) 0

/-- The complete signature scan over the firmware window, as run by
samsung_init: offsets 0 through 0xfffe, starting in match state 0. -/
def samsung_scan (buf : Nat → Nat) : Option Nat := scanFrom buf windowSize 0 0

/-- The marker "SwSmi@" occupies bytes p .. p+5 of the buffer. -/
def hasMarkerAt (buf : Nat → Nat) (p : Nat) : Prop :=
  ∀ j, j < 6 → readb buf (p + j) = testStr.getD j 0

instance (buf : Nat → Nat) (p : Nat) : Decidable (hasMarkerAt buf p) := by
  unfold hasMarkerAt; infer_instance

/-- A buffer with the signature at offset 0, followed by a SABI header whose
dataOffset field (bytes 11-12 of the buffer) holds 0x0020 and whose
dataSegment field (bytes 13-14) holds 0x1000, both little-endian. -/
def goodBuf : Nat → Nat :=
  fun i => [0x53, 0x77, 0x53, 0x6d, 0x69, 0x40,
            0x64, 0x00, 0xb0, 0xf4, 0xf8,
            0x20, 0x00, 0x00, 0x10, 0x06, 0x01].getD i 0

/-- The buffer of the scanner counterexample: the signature "SwSmi@" occurs
at offset 1, but it is immediately preceded at offset 0 by the extra byte
0x53 ('S'), which forms a 1-byte incomplete match; on the mismatch at
offset 1 the scanner consumes that byte without re-examining it. -/
def badBuf : Nat → Nat :=
  fun i => [0x53, 0x53, 0x77, 0x53, 0x6d, 0x69, 0x40].getD i 0

/-!  ## Initialization (samsung_init), lines 278-403  -/

/-- Physical address of the SABI interface, lines 338-339 of the C file:
`ifaceP = (dataSegment & 0x0ffff) << 4; ifaceP += dataOffset & 0x0ffff`. -/
def deriveIfaceP (seg off : Nat) : Nat := (seg % 0x10000) * 16 + (off % 0x10000)

/-- External outcomes that drive samsung_init: the module parameter `force`,
the DMI table check, whether each ioremap call succeeds, the firmware window
contents, and whether the platform/backlight registrations succeed. -/
structure InitEnv where
  force : Bool
  dmi_ok : Bool
  f0000_ok : Bool
  buf : Nat → Nat
  iface_ok : Bool
  platform_ok : Bool
  backlight_ok : Bool

/-- What samsung_init leaves behind: its return code, whether the firmware
window (f0000_segment) is still mapped on return, whether an ioremap of the
interface window was attempted and with which (address, size) request, and
whether the interface window is still mapped on return. -/
structure InitOutcome where
  retval : Int
  f0000_mapped : Bool
  iface_attempted : Bool
  iface_req : Option (Nat × Nat)
  iface_mapped : Bool

/-- samsung_init, lines 278-403 of the C file.  After the scan succeeds the
header is read at the returned offset o: dataOffset is the 16-bit field at
o+5 and dataSegment the one at o+7 (packed little-endian layout of struct
sabi_header).  The `if (!sabi)` test on line 321 can never fire (sabi is
base plus offset of a non-null mapping) and is omitted.  Note the C control
flow faithfully: the ioremap failure branch for the interface window does
`goto exit`, which lands on `return 0` and skips every iounmap. -/
def samsung_init (env : InitEnv) : InitOutcome :=
  if !env.force && !env.dmi_ok then
    ⟨-19, false, false, none, false⟩          -- -ENODEV
  else if !env.f0000_ok then
    ⟨-22, false, false, none, false⟩          -- -EINVAL, nothing mapped
  else
    match samsung_scan env.buf with
    | none =>
      -- error_no_signature: iounmap(f0000_segment); return -EINVAL
      ⟨-22, false, false, none, false⟩
    | some o =>
      let ifaceP := deriveIfaceP (readw env.buf (o + 7)) (readw env.buf (o + 5))
      if !env.iface_ok then
        -- goto exit: returns 0 with f0000_segment still mapped
        ⟨0, true, true, some (ifaceP, 16), false⟩
      else if !env.platform_ok then
        -- error_no_platform: iounmap(sabi_iface); iounmap(f0000_segment)
        ⟨-22, false, true, some (ifaceP, 16), false⟩
      else if !env.backlight_ok then
        -- error_no_backlight: unregister, then both iounmaps
        ⟨-22, false, true, some (ifaceP, 16), false⟩
      else
        ⟨0, true, true, some (ifaceP, 16), true⟩

/-!  ## The SABI command engine (sabi_get_command / sabi_set_command)  -/

/-- The header fields the engine reads (struct sabi_header values). -/
structure SabiHeaderV where
  portNo : Nat
  ifaceFunc : Nat
  enMem : Nat
  reMem : Nat

/-- The mutable SABI interface block (struct sabi_interface). -/
structure IfaceState where
  mainfunc : Nat
  subfunc : Nat
  complete : Nat
  retval : Nat → Nat

/-- One observable hardware effect of a command execution: a port write
(outb value port), one of the interface-block writes, the fixed sleep, the
sampling of the validation bytes, or taking/releasing the engine mutex. -/
inductive HwEvent where
  | lock : HwEvent
  | unlock : HwEvent
  | outb : Nat → Nat → HwEvent
  | wmain : Nat → HwEvent
  | wsub : Nat → HwEvent
  | wcomplete : Nat → HwEvent
  | wretval0 : Nat → HwEvent
  | sleep : Nat → HwEvent
  | sample : Nat → Nat → HwEvent
  deriving DecidableEq, Repr

/-- The engine's environment: the header values and the firmware's action
on the interface block, applied while the driver sleeps 100 ms after the
trigger port write. -/
structure CmdEnv where
  header : SabiHeaderV
  fw : IfaceState → IfaceState

/-- Result of sabi_get_command: the C return value, the caller's
sabi_retval bytes after the call, the interface block after the call, and
the ordered hardware effects. -/
structure CmdResult where
  ret : Int
  sret : Nat → Nat
  iface : IfaceState
  trace : List HwEvent

/-- Result of sabi_set_command (no caller buffer). -/
structure SetResult where
  ret : Int
  iface : IfaceState
  trace : List HwEvent

/-- sabi_get_command, lines 125-172 of the C file.  The three interface
writes (mainfunc := 0x5843, subfunc := command, complete := 0) are collapsed
into one state, with their order kept in the trace; the firmware acts during
msleep(100); then the validation bytes are sampled.  Success iff
complete == 0xaa and retval[0] != 0xff; on success the first 4 retval bytes
are copied into the caller's buffer, on failure the return value is -EINVAL
and the caller's buffer is left untouched. -/
def sabi_get_command (env : CmdEnv) (command : Nat) (s0 : IfaceState)
    (sret0 : Nat → Nat) : CmdResult :=
  let port := env.header.portNo % 65536
  let s1 : IfaceState := ⟨0x5843, command % 256, 0, s0.retval⟩
  let s2 := env.fw s1
  let c := s2.complete % 256
  let r0 := s2.retval 0 % 256
  { ret := if c = 0xaa ∧ r0 ≠ 0xff then 0 else -22,
    sret := if c = 0xaa ∧ r0 ≠ 0xff
      then fun i => if i < 4 then s2.retval i % 256 else sret0 i
      else sret0,
    iface := s2,
    trace := [HwEvent.lock,
              HwEvent.outb (env.header.enMem % 256) port,
              HwEvent.wmain 0x5843,
              HwEvent.wsub (command % 256),
              HwEvent.wcomplete 0,
              HwEvent.outb (env.header.ifaceFunc % 256) port,
              HwEvent.sleep 100,
              HwEvent.outb (env.header.reMem % 256) port,
              HwEvent.sample c r0,
              HwEvent.unlock] }

/-- sabi_set_command, lines 174-211 of the C file.  Identical to the get
form except that the payload byte is written into retval[0] after the
complete byte is cleared and before the trigger port write, and no bytes
are copied back on success. -/
def sabi_set_command (env : CmdEnv) (command data : Nat) (s0 : IfaceState) :
    SetResult :=
  let port := env.header.portNo % 65536
  let s1 : IfaceState := ⟨0x5843, command % 256, 0,
    fun i => if i = 0 then data % 256 else s0.retval i⟩
  let s2 := env.fw s1
  let c := s2.complete % 256
  let r0 := s2.retval 0 % 256
  { ret := if c = 0xaa ∧ r0 ≠ 0xff then 0 else -22,
    iface := s2,
    trace := [HwEvent.lock,
              HwEvent.outb (env.header.enMem % 256) port,
              HwEvent.wmain 0x5843,
              HwEvent.wsub (command % 256),
              HwEvent.wcomplete 0,
              HwEvent.wretval0 (data % 256),
              HwEvent.outb (env.header.ifaceFunc % 256) port,
              HwEvent.sleep 100,
              HwEvent.outb (env.header.reMem % 256) port,
              HwEvent.sample c r0,
              HwEvent.unlock] }

/-!  ## Brightness adapter  -/

def SABI_GET_BRIGHTNESS : Nat := 0x10
def SABI_SET_BRIGHTNESS : Nat := 0x11
def SABI_GET_BACKLIGHT : Nat := 0x2d
def SABI_SET_BACKLIGHT : Nat := 0x2e

/-- read_brightness, lines 213-225 of the C file.  `garbage` is the
uninitialized stack content of the local sabi_retval.  The C source indents
the second if under the first, but it is not inside it: the decrement
statement runs unconditionally, exactly as modelled here. -/
def read_brightness (env : CmdEnv) (s0 : IfaceState) (garbage : Nat → Nat) : Nat :=
  let r := sabi_get_command env SABI_GET_BACKLIGHT s0 garbage
  let user_brightness : Nat := 0
  let user_brightness : Nat := if r.ret = 0 then r.sret 0 else user_brightness
  let user_brightness : Nat :=
    if user_brightness ≠ 0 then user_brightness - 1 else user_brightness
  user_brightness

/-- set_brightness, lines 227-230 of the C file: a set-brightness command
with payload user_brightness + 1 (reduced to a byte at the writeb). -/
def set_brightness (env : CmdEnv) (user_brightness : Nat) (s0 : IfaceState) :
    SetResult :=
  sabi_set_command env SABI_SET_BRIGHTNESS (user_brightness + 1) s0

/-- The echoing firmware of the round-trip scenario: it asserts completion
and leaves every other interface byte (in particular retval[0], where the
set payload sits) unchanged. -/
def echoFw : IfaceState → IfaceState :=
  fun s => { s with complete := 0xaa }

/-!  ## Concrete environments used to instantiate the theorems  -/

/-- A header with all fields zero. -/
def hdr0 : SabiHeaderV := ⟨0, 0, 0, 0⟩

/-- An interface block with all bytes zero. -/
def s00 : IfaceState := ⟨0, 0, 0, fun _ => 0⟩

/-- An all-zero caller buffer. -/
def g0 : Nat → Nat := fun _ => 0

/-- An engine environment whose firmware never asserts completion: the
interface block is left all zero, so complete is never 0xaa. -/
def envFail : CmdEnv := ⟨hdr0, fun _ => s00⟩

/-- An engine environment whose firmware asserts completion and reports the
raw value 5 in retval[0]. -/
def env5 : CmdEnv :=
  ⟨hdr0, fun s => ⟨s.mainfunc, s.subfunc, 0xaa, fun i => if i = 0 then 5 else s.retval i⟩⟩

/-- Init environment where the DMI gate is forced open, the firmware window
maps, the signature is present, but the interface-window ioremap fails. -/
def C2env : InitEnv := ⟨true, false, true, goodBuf, false, true, true⟩

/-- Init environment where everything succeeds, over goodBuf. -/
def envC7 : InitEnv := ⟨true, false, true, goodBuf, true, true, true⟩

/-- Init environment over a signature-free (all zero) firmware window. -/
def envC8 : InitEnv := ⟨true, false, true, fun _ => 0, true, true, true⟩

/-!  ## Scanner lemmas  -/

/-- One unfolding step of the scan loop. -/
lemma scanFrom_succ (buf : Nat → Nat) (n loca pStr : Nat) :
    scanFrom buf (n + 1) loca pStr =
      if readb buf loca = testStr.getD pStr 0 then
        if pStr = 5 then some (loca + 1)
        else scanFrom buf n (loca + 1) (pStr + 1)
      else scanFrom buf n (loca + 1) 0 := rfl

/-- A scan step that matches a non-final signature byte advances both the
offset and the match position. -/
lemma scanFrom_step_match (buf : Nat → Nat) (n loca pStr : Nat)
    (h : readb buf loca = testStr.getD pStr 0) (h5 : pStr ≠ 5) :
    scanFrom buf (n + 1) loca pStr = scanFrom buf n (loca + 1) (pStr + 1) := by
  rw [scanFrom_succ, if_pos h, if_neg h5]

/-- A scan step that matches the final signature byte returns the offset
immediately after it. -/
lemma scanFrom_step_break (buf : Nat → Nat) (n loca : Nat)
    (h : readb buf loca = testStr.getD 5 0) :
    scanFrom buf (n + 1) loca 5 = some (loca + 1) := by
  rw [scanFrom_succ, if_pos h, if_pos rfl]

/-- A scan step that mismatches resets the match position to 0 and (as the
loop increment still runs) consumes the mismatching byte. -/
lemma scanFrom_step_miss (buf : Nat → Nat) (n loca pStr : Nat)
    (h : readb buf loca ≠ testStr.getD pStr 0) :
    scanFrom buf (n + 1) loca pStr = scanFrom buf n (loca + 1) 0 := by
  rw [scanFrom_succ, if_neg h]

/-- Every byte of the signature is nonzero. -/
lemma testStr_getD_ne_zero (pStr : Nat) (h : pStr ≤ 5) : testStr.getD pStr 0 ≠ 0 := by
  interval_cases pStr <;> simp [testStr]

/-- Once the scan is inside an all-zero tail of the buffer, it can never
match again and returns none whatever fuel remains. -/
lemma scanFrom_zero_tail (buf : Nat → Nat) (L : Nat)
    (hz : ∀ i, L ≤ i → readb buf i = 0) :
    ∀ n loca pStr, pStr ≤ 5 → L ≤ loca → scanFrom buf n loca pStr = none := by
  intro n
  induction n with
  | zero => intro loca pStr _ _; rfl
  | succ n ih =>
    intro loca pStr h5 hL
    rw [scanFrom_step_miss]
    · exact ih (loca + 1) 0 (by omega) (by omega)
    · rw [hz loca hL]
      exact fun h => testStr_getD_ne_zero pStr h5 h.symm

/-- On a buffer whose bytes are all zero from position L on, the scan result
does not depend on the fuel, as long as the fuel reaches L. -/
lemma scanFrom_agree (buf : Nat → Nat) (L : Nat)
    (hz : ∀ i, L ≤ i → readb buf i = 0) :
    ∀ n₁ n₂ loca pStr, pStr ≤ 5 → L ≤ loca + n₁ → L ≤ loca + n₂ →
      scanFrom buf n₁ loca pStr = scanFrom buf n₂ loca pStr := by
  intro n₁
  induction n₁ with
  | zero =>
    intro n₂ loca pStr h5 h1 _
    rw [show scanFrom buf 0 loca pStr = none from rfl,
      scanFrom_zero_tail buf L hz n₂ loca pStr h5 (by omega)]
  | succ n₁ ih =>
    intro n₂ loca pStr h5 h1 h2
    rcases Nat.lt_or_ge loca L with hlt | hge
    · cases n₂ with
      | zero =>
        rw [show scanFrom buf 0 loca pStr = none from rfl] at *
        omega
      | succ n₂ =>
        rw [scanFrom_succ, scanFrom_succ]
        by_cases hc : readb buf loca = testStr.getD pStr 0
        · rw [if_pos hc, if_pos hc]
          by_cases hp : pStr = 5
          · rw [if_pos hp, if_pos hp]
          · rw [if_neg hp, if_neg hp]
            exact ih n₂ (loca + 1) (pStr + 1) (by omega) (by omega) (by omega)
        · rw [if_neg hc, if_neg hc]
          exact ih n₂ (loca + 1) 0 (by omega) (by omega) (by omega)
    · rw [scanFrom_zero_tail buf L hz _ loca pStr h5 hge,
        scanFrom_zero_tail buf L hz n₂ loca pStr h5 hge]

/-- Soundness of the scan loop: whenever it returns an offset, the signature
really occupies the six bytes just before that offset, and the offset stays
inside the scanned range.  The invariant says that the pStr bytes before
loca match the first pStr signature bytes. -/
lemma scanFrom_sound (buf : Nat → Nat) :
    ∀ n loca pStr o, pStr ≤ 5 → pStr ≤ loca →
      (∀ j, j < pStr → readb buf (loca - pStr + j) = testStr.getD j 0) →
      scanFrom buf n loca pStr = some o →
      6 ≤ o ∧ o ≤ loca + n ∧ hasMarkerAt buf (o - 6) := by
  intro n
  induction n with
  | zero =>
    intro loca pStr o _ _ _ h
    exact absurd h (by rw [show scanFrom buf 0 loca pStr = none from rfl]; simp)
  | succ n ih =>
    intro loca pStr o h5 hl hinv h
    rw [scanFrom_succ] at h
    by_cases hc : readb buf loca = testStr.getD pStr 0
    · rw [if_pos hc] at h
      by_cases hp : pStr = 5
      · rw [if_pos hp] at h
        have ho : o = loca + 1 := (Option.some.injEq _ _).mp h.symm
        subst ho
        subst hp
        refine ⟨by omega, by omega, ?_⟩
        intro j hj
        rcases Nat.lt_or_ge j 5 with hj5 | hj5
        · have := hinv j hj5
          rwa [show loca - 5 + j = loca + 1 - 6 + j from by omega] at this
        · have hj' : j = 5 := by omega
          subst hj'
          rwa [show loca + 1 - 6 + 5 = loca from by omega]
      · rw [if_neg hp] at h
        have hrec := ih (loca + 1) (pStr + 1) o (by omega) (by omega) ?_ h
        · exact ⟨hrec.1, by omega, hrec.2.2⟩
        · intro j hj
          rcases Nat.lt_or_ge j pStr with hjp | hjp
          · have := hinv j hjp
            rwa [show loca - pStr + j = loca + 1 - (pStr + 1) + j from by omega] at this
          · have hj' : j = pStr := by omega
            subst hj'
            rwa [show loca + 1 - (j + 1) + j = loca from by omega]
    · rw [if_neg hc] at h
      have hrec := ih (loca + 1) 0 o (by omega) (by omega)
        (fun j hj => absurd hj (Nat.not_lt_zero j)) h
      exact ⟨hrec.1, by omega, hrec.2.2⟩

/-- Soundness of the full scan: a returned offset points just past a real
occurrence of the signature inside the window. -/
lemma scan_sound (buf : Nat → Nat) (o : Nat) (h : samsung_scan buf = some o) :
    6 ≤ o ∧ o ≤ windowSize ∧ hasMarkerAt buf (o - 6) := by
  have := scanFrom_sound buf windowSize 0 0 o (by omega) (by omega)
    (fun j hj => absurd hj (Nat.not_lt_zero j)) h
  exact ⟨this.1, by omega, this.2.2⟩

/-- When the signature occurs nowhere inside the window, the scan reports
"signature not found". -/
lemma scan_none_of_absent (buf : Nat → Nat)
    (h : ∀ p, p + 6 ≤ windowSize → ¬ hasMarkerAt buf p) :
    samsung_scan buf = none := by
  cases hs : samsung_scan buf with
  | none => rfl
  | some o =>
    obtain ⟨h6, hw, hm⟩ := scan_sound buf o hs
    exact absurd hm (h (o - 6) (by omega))

/-- The scan passes over a run of bytes none of which is the first signature
byte 0x53 without leaving match state 0. -/
lemma scanFrom_skip (buf : Nat → Nat) :
    ∀ k n loca, (∀ i, i < k → readb buf (loca + i) ≠ 0x53) →
      scanFrom buf (n + k) loca 0 = scanFrom buf n (loca + k) 0 := by
  intro k
  induction k with
  | zero => intro n loca _; rfl
  | succ k ih =>
    intro n loca h
    have h0 : readb buf loca ≠ testStr.getD 0 0 := by
      have := h 0 (by omega)
      simpa [testStr] using this
    rw [show n + (k + 1) = (n + k) + 1 from rfl, scanFrom_step_miss buf (n + k) loca 0 h0]
    have hshift : ∀ i, i < k → readb buf (loca + 1 + i) ≠ 0x53 := by
      intro i hi
      have := h (i + 1) (by omega)
      rwa [show loca + (i + 1) = loca + 1 + i from by omega] at this
    rw [ih n (loca + 1) hshift, show loca + 1 + k = loca + (k + 1) from by omega]

/-- Starting in match state 0 at an occurrence of the signature, the scan
matches all six bytes and returns the offset just after them. -/
lemma scanFrom_found (buf : Nat → Nat) (p n : Nat) (hm : hasMarkerAt buf p) :
    scanFrom buf (n + 6) p 0 = some (p + 6) := by
  have h0 := hm 0 (by omega)
  have h1 := hm 1 (by omega)
  have h2 := hm 2 (by omega)
  have h3 := hm 3 (by omega)
  have h4 := hm 4 (by omega)
  have h5 := hm 5 (by omega)
  calc scanFrom buf (n + 6) p 0
      = scanFrom buf (n + 5) (p + 1) 1 := scanFrom_step_match buf (n + 5) p 0 h0 (by omega)
    _ = scanFrom buf (n + 4) (p + 2) 2 := scanFrom_step_match buf (n + 4) (p + 1) 1 h1 (by omega)
    _ = scanFrom buf (n + 3) (p + 3) 3 := scanFrom_step_match buf (n + 3) (p + 2) 2 h2 (by omega)
    _ = scanFrom buf (n + 2) (p + 4) 4 := scanFrom_step_match buf (n + 2) (p + 3) 3 h3 (by omega)
    _ = scanFrom buf (n + 1) (p + 5) 5 := scanFrom_step_match buf (n + 1) (p + 4) 4 h4 (by omega)
    _ = some (p + 6) := scanFrom_step_break buf n (p + 5) h5

/-- Restricted completeness of the scan: an occurrence of the signature that
fits in the window and has no earlier occurrence of the first signature byte
0x53 anywhere before it is found, and the offset just past it is returned. -/
lemma scan_complete (buf : Nat → Nat) (p : Nat) (hp : p + 6 ≤ windowSize)
    (hm : hasMarkerAt buf p) (hS : ∀ i, i < p → readb buf i ≠ 0x53) :
    samsung_scan buf = some (p + 6) := by
  unfold samsung_scan
  rw [show windowSize = ((windowSize - 6 - p) + 6) + p from by unfold windowSize at *; omega]
  have hS' : ∀ i, i < p → readb buf (0 + i) ≠ 0x53 := by
    intro i hi; rw [Nat.zero_add]; exact hS i hi
  rw [scanFrom_skip buf p ((windowSize - 6 - p) + 6) 0 hS', Nat.zero_add]
  exact scanFrom_found buf p (windowSize - 6 - p) hm

lemma goodBuf_zero_tail : ∀ i, 17 ≤ i → readb goodBuf i = 0 := by
  intro i hi
  unfold readb goodBuf
  rw [List.getD_eq_default _ _ (by simpa using hi)]

lemma goodBuf_scan : samsung_scan goodBuf = some 6 := by
  have := scan_complete goodBuf 0 (by unfold windowSize; omega) (by decide)
    (fun i hi => absurd hi (Nat.not_lt_zero i))
  simpa using this

lemma badBuf_zero_tail : ∀ i, 7 ≤ i → readb badBuf i = 0 := by
  intro i hi
  unfold readb badBuf
  rw [List.getD_eq_default _ _ (by simpa using hi)]

lemma badBuf_scan : samsung_scan badBuf = none := by
  unfold samsung_scan
  rw [scanFrom_agree badBuf 7 badBuf_zero_tail windowSize 8 0 0 (by omega)
    (by unfold windowSize; omega) (by omega)]
  decide

lemma zeroBuf_scan : samsung_scan (fun _ => 0) = none :=
  scanFrom_zero_tail (fun _ => 0) 0 (fun _ _ => rfl) windowSize 0 0 (by omega) (by omega)

/-!  ## Claim theorems  -/

/-- C1 (counterexample): the claim that the scan finds the marker whenever
it is present at any position is false.  In badBuf the marker "SwSmi@"
occupies offsets 1..6, well inside the window, yet the scan reports
"signature not found": the extra 'S' at offset 0 starts an incomplete match,
and on the mismatch at offset 1 the scanner consumes the byte at offset 1
(the start of the real occurrence) without re-examining it. -/
theorem C1_counterexample :
    hasMarkerAt badBuf 1 ∧ 1 + 6 ≤ windowSize ∧ samsung_scan badBuf = none :=
  ⟨by decide, by decide, badBuf_scan⟩

/-- C1 (amended): the signature scan is sound — an offset it returns points
immediately past a real occurrence of the 6-byte marker "SwSmi@" inside the
window — hence, when the marker is absent from the window, the scan reports
"signature not found"; and the scan does find the marker and return the
offset immediately after it whenever the marker occurs at a position with
no earlier occurrence of the marker's first byte 0x53.  (Unrestricted
completeness fails: an occurrence immediately preceded by an incomplete
match of the marker can be missed, because on mismatch the scanner resets
its match position but still consumes the mismatching input byte.) -/
theorem C1_scan_amended (buf : Nat → Nat) :
    (∀ o, samsung_scan buf = some o →
      6 ≤ o ∧ o ≤ windowSize ∧ hasMarkerAt buf (o - 6)) ∧
    ((∀ p, p + 6 ≤ windowSize → ¬ hasMarkerAt buf p) → samsung_scan buf = none) ∧
    (∀ p, p + 6 ≤ windowSize → hasMarkerAt buf p →
      (∀ i, i < p → readb buf i ≠ 0x53) → samsung_scan buf = some (p + 6)) :=
  ⟨fun o h => scan_sound buf o h,
   fun h => scan_none_of_absent buf h,
   fun p hp hm hS => scan_complete buf p hp hm hS⟩

/-- C1 (witness): the amended theorem applied to the concrete buffer with
the marker at offset 0 yields the offset 6 immediately after it. -/
theorem C1_scan_amended_witness : samsung_scan goodBuf = some 6 := by
  have h := (C1_scan_amended goodBuf).2.2 0 (by decide) (by decide)
    (fun i hi => absurd hi (Nat.not_lt_zero i))
  simpa using h

/-- C2 (code evaluation at the failing input): when the signature is found
but the ioremap of the 16-byte command-interface window fails, samsung_init
executes `goto exit`, which lands on `return 0`: it reports success and
skips every iounmap, so the firmware window stays mapped.  The claim (and
the spec) say init must fail with an error and release the firmware-window
mapping; the code does neither, contradicting its own KERN_ERR report. -/
theorem C2_code_eval :
    (samsung_init C2env).retval = 0 ∧
    (samsung_init C2env).f0000_mapped = true ∧
    (samsung_init C2env).iface_attempted = true ∧
    (samsung_init C2env).iface_mapped = false := by
  have h : C2env.buf = goodBuf := rfl
  simp [samsung_init, C2env, goodBuf_scan]

/-- C7: after a successful scan, samsung_init requests the mapping of
exactly 16 bytes at the physical address derived from the header as
((dataSegment & 0xFFFF) << 4) + (dataOffset & 0xFFFF), where dataSegment
and dataOffset are the little-endian 16-bit header fields at offsets o+7
and o+5 of the firmware window; in particular dataSegment 0x1000 with
dataOffset 0x0020 derives the address 0x10020. -/
theorem C7_iface_addr (env : InitEnv) (o : Nat)
    (hd : env.force = true ∨ env.dmi_ok = true) (hf : env.f0000_ok = true)
    (hs : samsung_scan env.buf = some o) :
    (samsung_init env).iface_req =
      some (deriveIfaceP (readw env.buf (o + 7)) (readw env.buf (o + 5)), 16) ∧
    deriveIfaceP 0x1000 0x0020 = 0x10020 := by
  constructor
  · have h1 : (!env.force && !env.dmi_ok) = false := by
      rcases hd with h | h <;> simp [h]
    simp only [samsung_init, h1, hf, hs, Bool.not_true, Bool.false_eq_true, if_false]
    split <;> (first | rfl | (split <;> (first | rfl | (split <;> rfl))))
  · decide

/-- C7 (witness): on the concrete environment envC7 over goodBuf, whose
header fields hold dataSegment 0x1000 and dataOffset 0x0020, samsung_init
requests a 16-byte mapping at 0x10020. -/
theorem C7_iface_addr_witness : (samsung_init envC7).iface_req = some (0x10020, 16) := by
  have h := (C7_iface_addr envC7 6 (Or.inl rfl) rfl goodBuf_scan).1
  rw [h]
  decide

/-- C8: when the firmware window contains no signature, samsung_init takes
the error_no_signature path: it returns the -EINVAL failure, never attempts
to map the command-interface window, and unmaps the firmware window before
returning. -/
theorem C8_no_signature (env : InitEnv)
    (hd : env.force = true ∨ env.dmi_ok = true) (hf : env.f0000_ok = true)
    (hs : samsung_scan env.buf = none) :
    (samsung_init env).retval = -22 ∧
    (samsung_init env).iface_attempted = false ∧
    (samsung_init env).iface_req = none ∧
    (samsung_init env).f0000_mapped = false := by
  have h1 : (!env.force && !env.dmi_ok) = false := by
    rcases hd with h | h <;> simp [h]
  simp [samsung_init, h1, hf, hs]

/-- C8 (witness): the theorem applied to the concrete environment over the
all-zero, signature-free firmware window. -/
theorem C8_no_signature_witness :
    (samsung_init envC8).retval = -22 ∧
    (samsung_init envC8).iface_attempted = false ∧
    (samsung_init envC8).iface_req = none ∧
    (samsung_init envC8).f0000_mapped = false :=
  C8_no_signature envC8 (Or.inl rfl) rfl zeroBuf_scan

/-- C3: for both command forms, success (return 0) is declared iff, after
the sleep and restore toggle, the interface's complete byte is 0xAA and
retval[0] is not 0xFF; on success of a get exactly the first 4 bytes of
interface retval are copied into the caller's buffer (the rest is left
alone); any other combination of the two validation bytes yields the
command-failure return -EINVAL, with no retry. -/
theorem C3_validation (env : CmdEnv) (command d : Nat) (s0 : IfaceState)
    (sret0 : Nat → Nat) :
    let g := sabi_get_command env command s0 sret0
    let st := sabi_set_command env command d s0
    (g.ret = 0 ↔ g.iface.complete % 256 = 0xaa ∧ g.iface.retval 0 % 256 ≠ 0xff) ∧
    (g.ret = 0 →
      (∀ i, i < 4 → g.sret i = g.iface.retval i % 256) ∧
      (∀ i, 4 ≤ i → g.sret i = sret0 i)) ∧
    (g.ret ≠ 0 → g.ret = -22) ∧
    (st.ret = 0 ↔ st.iface.complete % 256 = 0xaa ∧ st.iface.retval 0 % 256 ≠ 0xff) ∧
    (st.ret ≠ 0 → st.ret = -22) := by
  dsimp only [sabi_get_command, sabi_set_command]
  by_cases hg : (env.fw ⟨0x5843, command % 256, 0, s0.retval⟩).complete % 256 = 0xaa ∧
      (env.fw ⟨0x5843, command % 256, 0, s0.retval⟩).retval 0 % 256 ≠ 0xff
  · by_cases hst : (env.fw ⟨0x5843, command % 256, 0,
        fun i => if i = 0 then d % 256 else s0.retval i⟩).complete % 256 = 0xaa ∧
        (env.fw ⟨0x5843, command % 256, 0,
        fun i => if i = 0 then d % 256 else s0.retval i⟩).retval 0 % 256 ≠ 0xff
    · refine ⟨by simp [hg], fun _ => ⟨fun i hi => by simp [hg, hi], fun i hi => by
        simp [hg]; omega⟩, by simp [hg], by simp [hst], by simp [hst]⟩
    · refine ⟨by simp [hg], fun _ => ⟨fun i hi => by simp [hg, hi], fun i hi => by
        simp [hg]; omega⟩, by simp [hg], by simp [hst], by simp [hst]⟩
  · by_cases hst : (env.fw ⟨0x5843, command % 256, 0,
        fun i => if i = 0 then d % 256 else s0.retval i⟩).complete % 256 = 0xaa ∧
        (env.fw ⟨0x5843, command % 256, 0,
        fun i => if i = 0 then d % 256 else s0.retval i⟩).retval 0 % 256 ≠ 0xff
    · refine ⟨by simp [hg], fun h => absurd h (by simp [hg]), by simp [hg],
        by simp [hst], by simp [hst]⟩
    · refine ⟨by simp [hg], fun h => absurd h (by simp [hg]), by simp [hg],
        by simp [hst], by simp [hst]⟩

/-- C3 (witness): on a firmware that asserts completion with retval[0] = 5
the get succeeds and copies byte 0; on a firmware that never asserts
completion the set fails with -EINVAL. -/
theorem C3_validation_witness :
    (sabi_get_command env5 SABI_GET_BACKLIGHT s00 g0).ret = 0 ∧
    (sabi_get_command env5 SABI_GET_BACKLIGHT s00 g0).sret 0 = 5 ∧
    (sabi_set_command envFail SABI_SET_BRIGHTNESS 4 s00).ret = -22 := by
  refine ⟨?_, ?_, ?_⟩
  · exact (C3_validation env5 SABI_GET_BACKLIGHT 4 s00 g0).1.mpr (by decide)
  · have h := ((C3_validation env5 SABI_GET_BACKLIGHT 4 s00 g0).2.1 (by decide)).1 0
      (by decide)
    rw [h]; decide
  · exact (C3_validation envFail SABI_SET_BRIGHTNESS 4 s00 g0).2.2.2.2 (by decide)

/-- C4: one command execution performs its hardware effects in the fixed
order: lock, enable-code port write, mainfunc magic 0x5843, command opcode,
clearing of the complete byte, for set commands the payload write into
retval[0], the trigger port write, the 100 ms sleep, the restore-code port
write, and only then the sampling of the two validation bytes. -/
theorem C4_order (env : CmdEnv) (command d : Nat) (s0 : IfaceState)
    (sret0 : Nat → Nat) :
    (sabi_get_command env command s0 sret0).trace =
      [HwEvent.lock,
       HwEvent.outb (env.header.enMem % 256) (env.header.portNo % 65536),
       HwEvent.wmain 0x5843,
       HwEvent.wsub (command % 256),
       HwEvent.wcomplete 0,
       HwEvent.outb (env.header.ifaceFunc % 256) (env.header.portNo % 65536),
       HwEvent.sleep 100,
       HwEvent.outb (env.header.reMem % 256) (env.header.portNo % 65536),
       HwEvent.sample ((sabi_get_command env command s0 sret0).iface.complete % 256)
         ((sabi_get_command env command s0 sret0).iface.retval 0 % 256),
       HwEvent.unlock] ∧
    (sabi_set_command env command d s0).trace =
      [HwEvent.lock,
       HwEvent.outb (env.header.enMem % 256) (env.header.portNo % 65536),
       HwEvent.wmain 0x5843,
       HwEvent.wsub (command % 256),
       HwEvent.wcomplete 0,
       HwEvent.wretval0 (d % 256),
       HwEvent.outb (env.header.ifaceFunc % 256) (env.header.portNo % 65536),
       HwEvent.sleep 100,
       HwEvent.outb (env.header.reMem % 256) (env.header.portNo % 65536),
       HwEvent.sample ((sabi_set_command env command d s0).iface.complete % 256)
         ((sabi_set_command env command d s0).iface.retval 0 % 256),
       HwEvent.unlock] :=
  ⟨rfl, rfl⟩

/-- C9: every get and set call takes the engine lock first and releases it
last on every exit path; and when the firmware never sets the complete byte
to 0xAA, every get and set call returns the command-failure error -EINVAL
while the trace still ends in the unlock. -/
theorem C9_lock (env : CmdEnv) (command d : Nat) (s0 : IfaceState)
    (sret0 : Nat → Nat) :
    ((sabi_get_command env command s0 sret0).trace.head? = some HwEvent.lock ∧
     (sabi_get_command env command s0 sret0).trace.getLast? = some HwEvent.unlock ∧
     (sabi_set_command env command d s0).trace.head? = some HwEvent.lock ∧
     (sabi_set_command env command d s0).trace.getLast? = some HwEvent.unlock) ∧
    ((∀ s, (env.fw s).complete % 256 ≠ 0xaa) →
      (sabi_get_command env command s0 sret0).ret = -22 ∧
      (sabi_set_command env command d s0).ret = -22) := by
  refine ⟨⟨rfl, rfl, rfl, rfl⟩, fun h => ⟨?_, ?_⟩⟩
  · simp only [sabi_get_command]
    exact if_neg (fun hc => h _ hc.1)
  · simp only [sabi_set_command]
    exact if_neg (fun hc => h _ hc.1)

/-- C9 (witness): on the firmware that never asserts completion, both calls
return -EINVAL. -/
theorem C9_lock_witness :
    (sabi_get_command envFail 0x04 s00 g0).ret = -22 ∧
    (sabi_set_command envFail 0x04 1 s00).ret = -22 :=
  (C9_lock envFail 0x04 1 s00 g0).2 (fun s => by simp [envFail, s00])

/-- C10: when a get command fails validation, sabi_get_command returns an
error and leaves the caller's sabi_retval buffer exactly as it was: the
four result bytes are written only on the success branch. -/
theorem C10_no_write_on_fail (env : CmdEnv) (command : Nat) (s0 : IfaceState)
    (sret0 : Nat → Nat) (h : (sabi_get_command env command s0 sret0).ret ≠ 0) :
    (sabi_get_command env command s0 sret0).sret = sret0 := by
  dsimp only [sabi_get_command] at h ⊢
  by_cases hc : (env.fw ⟨0x5843, command % 256, 0, s0.retval⟩).complete % 256 = 0xaa ∧
      (env.fw ⟨0x5843, command % 256, 0, s0.retval⟩).retval 0 % 256 ≠ 0xff
  · simp [hc] at h
  · simp [hc]

/-- C10 (witness): a concrete failing get leaves the caller buffer equal to
its garbage input. -/
theorem C10_no_write_on_fail_witness :
    (sabi_get_command envFail 0x04 s00 g0).ret ≠ 0 ∧
    (sabi_get_command envFail 0x04 s00 g0).sret = g0 :=
  ⟨by decide, C10_no_write_on_fail envFail 0x04 s00 g0 (by decide)⟩

/-- C5: read_brightness maps the raw backlight value to the external scale
— it returns 0 when the get command fails (never propagating the error),
and otherwise returns the raw value minus one for nonzero raw values and 0
for raw value 0. -/
theorem C5_read_brightness (env : CmdEnv) (s0 : IfaceState) (garbage : Nat → Nat) :
    let g := sabi_get_command env SABI_GET_BACKLIGHT s0 garbage
    (g.ret ≠ 0 → read_brightness env s0 garbage = 0) ∧
    (g.ret = 0 → read_brightness env s0 garbage =
      if g.sret 0 = 0 then 0 else g.sret 0 - 1) := by
  dsimp only
  constructor
  · intro h
    simp only [read_brightness]
    rw [if_neg h]
    simp
  · intro h
    simp only [read_brightness]
    rw [if_pos h]
    by_cases h0 : (sabi_get_command env SABI_GET_BACKLIGHT s0 garbage).sret 0 = 0
    · simp [h0]
    · simp [h0]

/-- C5 (witness): with a firmware reporting raw backlight 5, the get
succeeds and read_brightness returns the external value 4; the raw-0 and
failure cases are covered by the hypotheses of the theorem itself. -/
theorem C5_read_brightness_witness :
    (sabi_get_command env5 SABI_GET_BACKLIGHT s00 g0).ret = 0 ∧
    read_brightness env5 s00 g0 = 4 := by
  refine ⟨by decide, ?_⟩
  have h := (C5_read_brightness env5 s00 g0).2 (by decide)
  rw [h]
  decide

/-- C6: set_brightness issues a set-brightness (0x11) command whose payload
byte is level + 1 — both writes appear in its trace — and the pair
round-trips: with the echoing firmware (always succeeds, leaves the payload
in retval[0]), after set_brightness 3 a read_brightness returns 3. -/
theorem C6_round_trip (hdr : SabiHeaderV) (s0 : IfaceState) (garbage : Nat → Nat)
    (lvl : Nat) :
    HwEvent.wsub (SABI_SET_BRIGHTNESS % 256) ∈
      (set_brightness ⟨hdr, echoFw⟩ lvl s0).trace ∧
    HwEvent.wretval0 ((lvl + 1) % 256) ∈
      (set_brightness ⟨hdr, echoFw⟩ lvl s0).trace ∧
    read_brightness ⟨hdr, echoFw⟩ (set_brightness ⟨hdr, echoFw⟩ 3 s0).iface garbage = 3 := by
  refine ⟨?_, ?_, ?_⟩
  · simp [set_brightness, sabi_set_command]
  · simp [set_brightness, sabi_set_command]
  · simp [read_brightness, set_brightness, sabi_set_command, sabi_get_command, echoFw,
      SABI_SET_BRIGHTNESS, SABI_GET_BACKLIGHT]
